import Mathlib

/-!
Shallow embedding of the Tawabil spices order/payment backend
(Express + Mongoose / Prisma controllers) and proofs about it.

The embedding mirrors the JavaScript controllers:
* `validateItems`, `prismaCreateOrder`, `mongooseCreateOrder` follow
  `orderController.js` (both persistence variants);
* `verifyPayment`, `handleWebhook`, `handlePaymentCaptured` follow
  `paymentController.js`;
* `cancelOrder`, `getOrder`, `createRazorpayOrderCheck` follow the
  corresponding handlers;
* `validateOrderErrors`, `handleValidationErrors` follow
  `middleware/validation.js`;
* `globalErrorHandler` follows the error middleware in `server.js`;
* `generateOrderId` follows `config/prisma.js`.

External effects are made explicit parameters: the product catalog
(`getProductPrice`, which reads `data/products.json`) is a function
`Catalog`; Node's `crypto.createHmac('sha256', k).update(m).digest('hex')`
is an abstract function `HmacFn`; `JSON.stringify` of the webhook body is
an abstract serializer; clock readings and random draws are arguments.
Database queries are modelled by passing the query result (`Option Order`)
or the order store (`List Order`) explicitly.
-/

/-- The server-side product catalog: `getProductPrice productId packSize`
(`productController.js`), `none` when the product or pack size is unknown. -/
def Catalog : Type := String → String → Option Nat

/-- Abstract HMAC-SHA256 lowercase-hex digest: `hmac key message`
stands for Node's `crypto.createHmac('sha256', key).update(message).digest('hex')`. -/
def HmacFn : Type := String → String → String

/-- A cart/order item as sent by the client (`req.body.items[i]`).
`clientPrice` is the client-supplied price field, which the order
controller never reads. -/
structure ReqItem where
  productId : String
  name : String
  packSize : String
  quantity : Nat
  clientPrice : Nat
deriving Repr, DecidableEq

/-- A validated order item as stored by `createOrder` (`validatedItems` entry). -/
structure OrderItem where
  productId : String
  name : String
  packSize : String
  quantity : Nat
  price : Nat
  total : Nat
deriving Repr, DecidableEq

/-- Delivery address (`req.body.address` / the embedded address schema). -/
structure Address where
  houseNo : String
  street : String
  area : String
  pincode : String
deriving Repr, DecidableEq

/-- One `statusHistory` entry. -/
structure HistEntry where
  status : String
  timestamp : String
  note : Option String
deriving Repr, DecidableEq

/-- A stored order record (union of the fields used by the two backends). -/
structure Order where
  orderId : String
  address : Address
  items : List OrderItem
  subtotal : Nat
  deliveryCharge : Nat
  total : Nat
  paymentMethod : String
  paymentStatus : String
  status : String
  razorpayOrderId : Option String
  razorpayPaymentId : Option String
  razorpaySignature : Option String
  statusHistory : List HistEntry
deriving Repr, DecidableEq

/-- The body of `POST /api/orders` after JSON parsing. -/
structure CreateOrderReq where
  customerName : String
  customerPhone : String
  address : Address
  items : List ReqItem
  paymentMethod : String
deriving Repr, DecidableEq

/-- Constant `DELIVERY_CHARGE` from `orderController.js`. -/
def DELIVERY_CHARGE : Nat := 40

/-- Constant `FREE_DELIVERY_ABOVE` from `orderController.js`. -/
def FREE_DELIVERY_ABOVE : Nat := 500

/-- The price-revalidation loop of `createOrder`: looks every item up in
the catalog, building `validatedItems` and `subtotal`; `none` models the
early `400` return on the first item without a catalog price. -/
def validateItems (cat : Catalog) : List ReqItem → Option (List OrderItem × Nat)
  | [] => some ([], 0)
  | item :: rest =>
    match cat item.productId item.packSize with
    | none => none
    | some price =>
      match validateItems cat rest with
      | none => none
      | some (vs, sub) =>
        some (⟨item.productId, item.name, item.packSize, item.quantity,
               price, price * item.quantity⟩ :: vs,
              price * item.quantity + sub)

/-- The Prisma `createOrder` (first controller in `orderController.js`):
`none` models the `400` response when some item has no catalog price.
`oid` is the generated order id and `now` the current timestamp. -/
def prismaCreateOrder (cat : Catalog) (oid now : String)
    (req : CreateOrderReq) : Option Order :=
  match validateItems cat req.items with
  | none => none
  | some (vitems, subtotal) =>
    let deliveryCharge := if subtotal ≥ FREE_DELIVERY_ABOVE then 0 else DELIVERY_CHARGE
    let total := subtotal + deliveryCharge
    let initialStatus := if req.paymentMethod = "cod" then "CONFIRMED" else "PENDING"
    some { orderId := oid
           address := req.address
           items := vitems
           subtotal := subtotal
           deliveryCharge := deliveryCharge
           total := total
           paymentMethod := if req.paymentMethod = "cod" then "COD" else "ONLINE"
           paymentStatus := "PENDING"
           status := initialStatus
           razorpayOrderId := none
           razorpayPaymentId := none
           razorpaySignature := none
           statusHistory := [⟨initialStatus, now, none⟩] }

/-- The Mongoose `pre('save')` hook of the Order model: recomputes each
item's `total`, the `subtotal`, the `total`, and appends a history entry
when the `status` path is modified. -/
def preSave (now : String) (statusModified : Bool) (o : Order) : Order :=
  let items := o.items.map fun it => { it with total := it.price * it.quantity }
  let subtotal := (items.map (·.total)).sum
  { o with
    items := items
    subtotal := subtotal
    total := subtotal + o.deliveryCharge
    statusHistory :=
      if statusModified then o.statusHistory ++ [⟨o.status, now, none⟩]
      else o.statusHistory }

/-- The Mongoose `createOrder` (second controller in `orderController.js`);
`order.save()` runs the `pre('save')` hook, with every path of the fresh
document counting as modified. -/
def mongooseCreateOrder (cat : Catalog) (oid now : String)
    (req : CreateOrderReq) : Option Order :=
  match validateItems cat req.items with
  | none => none
  | some (vitems, subtotal) =>
    let deliveryCharge := if subtotal ≥ FREE_DELIVERY_ABOVE then 0 else DELIVERY_CHARGE
    let total := subtotal + deliveryCharge
    let st := if req.paymentMethod = "cod" then "confirmed" else "pending"
    some (preSave now true
      { orderId := oid
        address := req.address
        items := vitems
        subtotal := subtotal
        deliveryCharge := deliveryCharge
        total := total
        paymentMethod := req.paymentMethod
        paymentStatus := if req.paymentMethod = "cod" then "pending" else "pending"
        status := st
        razorpayOrderId := none
        razorpayPaymentId := none
        razorpaySignature := none
        statusHistory := [⟨st, now, none⟩] })

/-- The HTTP-facing result of the Prisma `createOrder` handler:
status code together with the order that was persisted, if any. -/
def createOrderHandler (cat : Catalog) (oid now : String)
    (req : CreateOrderReq) : Nat × Option Order :=
  match prismaCreateOrder cat oid now req with
  | none => (400, none)
  | some o => (201, some o)

/-- A one-product catalog used in concrete witnesses. -/
def demoCatalog : Catalog :=
  fun p s => if p = "cardamom" ∧ s = "100g" then some 250 else none

/-- A concrete valid request body used in concrete witnesses. -/
def demoReq : CreateOrderReq :=
  { customerName := "A", customerPhone := "9876543210",
    address := ⟨"1", "Main St", "Area", "560001"⟩,
    items := [⟨"cardamom", "Cardamom", "100g", 2, 999⟩],
    paymentMethod := "cod" }

/-- Model of `verifyPayment` (Mongoose variant, `paymentController.js`):
`secret` is `process.env.RAZORPAY_KEY_SECRET`, `found` the result of
`Order.findOne({ orderId })`.  Returns the HTTP status and the stored
order after the handler ran.  On a signature mismatch the order is saved
with `paymentStatus = 'failed'`; on a match `markAsPaid` sets
`paymentStatus`, both razorpay fields and `status`, and `save()` runs the
`pre('save')` hook (the `status` path is modified exactly when its value
changed). -/
def verifyPayment (secret : Option String) (hmac : HmacFn)
    (found : Option Order) (rzpOrderId rzpPaymentId rzpSignature now : String) :
    Nat × Option Order :=
  match found with
  | none => (404, none)
  | some order =>
    match secret with
    | none => (503, some order)
    | some key =>
      let expected := hmac key (rzpOrderId ++ "|" ++ rzpPaymentId)
      if expected ≠ rzpSignature then
        (400, some (preSave now false { order with paymentStatus := "failed" }))
      else
        (200, some (preSave now (order.status ≠ "confirmed")
          { order with
            paymentStatus := "paid"
            razorpayPaymentId := some rzpPaymentId
            razorpaySignature := some rzpSignature
            status := "confirmed" }))

/-- The `payload.payment.entity` of a Razorpay webhook event. -/
structure PaymentEntity where
  order_id : String
  id : String
deriving Repr, DecidableEq

/-- Replace the first order satisfying `p` by its image under `f`
(models `findOne` followed by saving that document). -/
def updateFirst (p : Order → Bool) (f : Order → Order) : List Order → List Order
  | [] => []
  | o :: rest => if p o then f o :: rest else o :: updateFirst p f rest

/-- The per-order update performed by `handlePaymentCaptured` when the
order is not yet paid, including the `pre('save')` hook. -/
def capturedUpdate (pay : PaymentEntity) (now : String) (o : Order) : Order :=
  preSave now (o.status ≠ "confirmed")
    { o with
      razorpayPaymentId := some pay.id
      paymentStatus := "paid"
      status := "confirmed" }

/-- Matches `Order.findOne({ razorpayOrderId: payment.order_id })`. -/
def byRzpOrderId (pay : PaymentEntity) (o : Order) : Bool :=
  o.razorpayOrderId == some pay.order_id

/-- Model of `handlePaymentCaptured` (Mongoose variant): finds the order by
`razorpayOrderId` and, only when its `paymentStatus` is not `'paid'`,
saves it as paid/confirmed. -/
def handlePaymentCaptured (pay : PaymentEntity) (now : String)
    (store : List Order) : List Order :=
  match store.find? (byRzpOrderId pay) with
  | none => store
  | some o =>
    if o.paymentStatus ≠ "paid" then
      updateFirst (byRzpOrderId pay) (capturedUpdate pay now) store
    else store

/-- Model of `handlePaymentFailed`: marks the order found by `razorpayOrderId`
as failed. -/
def handlePaymentFailed (pay : PaymentEntity) (now : String)
    (store : List Order) : List Order :=
  match store.find? (byRzpOrderId pay) with
  | none => store
  | some _ =>
    updateFirst (byRzpOrderId pay)
      (fun o => preSave now false { o with paymentStatus := "failed" }) store

/-- Matches `Order.findOne({ razorpayPaymentId: refund.payment_id })`. -/
def byRzpPaymentId (refundPaymentId : String) (o : Order) : Bool :=
  o.razorpayPaymentId == some refundPaymentId

/-- Model of `handleRefundProcessed`: marks the order found by
`razorpayPaymentId` as refunded and cancelled via `updateStatus`, which
sets `status`, appends the noted history entry, and saves; the
`pre('save')` hook then appends a second, bare `cancelled` entry when the
`status` path was actually modified (its value changed). -/
def handleRefundProcessed (refundPaymentId : String) (now : String)
    (store : List Order) : List Order :=
  match store.find? (byRzpPaymentId refundPaymentId) with
  | none => store
  | some _ =>
    updateFirst (byRzpPaymentId refundPaymentId)
      (fun o => preSave now (o.status ≠ "cancelled")
        { o with
          paymentStatus := "refunded"
          status := "cancelled"
          statusHistory := o.statusHistory ++
            [⟨"cancelled", now, some "Refund processed"⟩] }) store

/-- A webhook request body (`event`, `payload.payment.entity`,
`payload.refund.entity.payment_id`) as seen by the handler. -/
structure WebhookEvent where
  event : String
  payment : PaymentEntity
  refundPaymentId : String
deriving Repr, DecidableEq

/-- The event dispatch at the end of `handleWebhook` (the `switch`). -/
def webhookDispatch (ev : WebhookEvent) (now : String)
    (store : List Order) : List Order :=
  if ev.event = "payment.captured" then handlePaymentCaptured ev.payment now store
  else if ev.event = "payment.failed" then handlePaymentFailed ev.payment now store
  else if ev.event = "refund.processed" then handleRefundProcessed ev.refundPaymentId now store
  else store

/-- Model of `handleWebhook` (`POST /api/payments/webhook`): `webhookSecret` is
`process.env.RAZORPAY_WEBHOOK_SECRET`, `sigHeader` the
`x-razorpay-signature` header, `serialize` stands for `JSON.stringify`
applied to the request body as delivered to the handler.  Returns the
HTTP status and the resulting order store. -/
def handleWebhook (webhookSecret : Option String) (hmac : HmacFn)
    (serialize : WebhookEvent → String) (sigHeader : Option String)
    (ev : WebhookEvent) (now : String) (store : List Order) :
    Nat × List Order :=
  match webhookSecret with
  | none => (503, store)
  | some secret =>
    match sigHeader with
    | none => (400, store)
    | some sig =>
      if sig ≠ hmac secret (serialize ev) then (401, store)
      else (200, webhookDispatch ev now store)

/-- Model of `getOrder` (`GET /api/orders/:orderId`): status code for a given
lookup result. -/
def getOrder (found : Option Order) : Nat :=
  match found with
  | none => 404
  | some _ => 200

/-- Model of `cancelOrder` (Prisma variant, `POST /api/orders/:orderId/cancel`):
404 when the lookup fails, 400 when the status is not cancellable,
otherwise sets `status` to `CANCELLED` and appends a history entry whose
note is the given reason or `'Cancelled by customer'`. -/
def cancelOrder (reason : Option String) (now : String)
    (found : Option Order) : Nat × Option Order :=
  match found with
  | none => (404, none)
  | some order =>
    if order.status = "PENDING" ∨ order.status = "CONFIRMED" then
      (200, some
        { order with
          status := "CANCELLED"
          statusHistory := order.statusHistory ++
            [⟨"CANCELLED", now, some (reason.getD "Cancelled by customer")⟩] })
    else (400, some order)

/-- The checks of `createRazorpayOrder` (`POST /api/payments/create-order`)
up to the external gateway call: JS truthiness of `orderId`/`amount` maps
the empty string and 0 to the 400 branch; 200 stands for reaching the
`razorpayInstance.orders.create` call. -/
def createRazorpayOrderCheck (orderId : String) (amount : Nat)
    (found : Option Order) (configured : Bool) : Nat :=
  if orderId = "" ∨ amount = 0 then 400
  else
    match found with
    | none => 404
    | some order =>
      if amount ≠ order.total then 400
      else if ¬configured then 503
      else 200

/-- One entry of the `errors` array built by `handleValidationErrors`. -/
structure FieldError where
  field : String
  msg : String
deriving Repr, DecidableEq

/-- A JSON error envelope `{ success, message }` with its HTTP status. -/
structure ErrResponse where
  status : Nat
  success : Bool
  message : String
deriving Repr, DecidableEq

/-- Model of `handleValidationErrors` (`middleware/validation.js`): with a
non-empty validation-error list it responds 400 with the envelope,
otherwise (`none`) it calls `next()`. -/
def handleValidationErrors (errors : List FieldError) : Option ErrResponse :=
  if errors.isEmpty then none
  else some ⟨400, false, "Validation error"⟩

/-- The `^560[0-9]{3}$` test on `address.pincode`
(`validateOrder` in `middleware/validation.js`). -/
def pincodeValid (s : String) : Bool :=
  match s.data with
  | '5' :: '6' :: '0' :: [a, b, c] => a.isDigit && b.isDigit && c.isDigit
  | _ => false

/-- The `isInt({ min: 1, max: 100 })` test on `items.*.quantity`,
on an integer quantity. -/
def quantityValid (q : Int) : Bool := 1 ≤ q ∧ q ≤ 100

/-- The `isIn(['online', 'cod'])` test on `paymentMethod`. -/
def paymentMethodValid (m : String) : Bool := m = "online" ∨ m = "cod"

/-- The `validateOrder` rules of `middleware/validation.js` that bear on
the claims, evaluated on a request body: each failing rule contributes
its field error.  (Quantities are already `Nat` in `CreateOrderReq`, so
the `isInt` bounds amount to `1 ≤ q ∧ q ≤ 100`.) -/
def validateOrderErrors (req : CreateOrderReq) : List FieldError :=
  (if req.items.isEmpty then
      [⟨"items", "Order must contain at least one item"⟩] else []) ++
  (req.items.filterMap fun it =>
      if quantityValid it.quantity then none
      else some ⟨"items.*.quantity", "Quantity must be between 1 and 100"⟩) ++
  (if pincodeValid req.address.pincode then []
   else [⟨"address.pincode", "We only deliver within Bengaluru (560xxx pincodes)"⟩]) ++
  (if paymentMethodValid req.paymentMethod then []
   else [⟨"paymentMethod", "Invalid payment method"⟩])

/-- Endpoint `POST /api/orders` as routed in `routes/orders.js`: the
`validateOrder` middleware chain runs `handleValidationErrors` before
`createOrder`. -/
def orderEndpoint (cat : Catalog) (oid now : String)
    (req : CreateOrderReq) : Nat × Option Order :=
  match handleValidationErrors (validateOrderErrors req) with
  | some r => (r.status, none)
  | none => createOrderHandler cat oid now req

/-- A JavaScript error object as inspected by the global error handler in
`server.js` (`err.name`, `err.code`, `err.status`, `err.message`). -/
structure JsError where
  name : Option String
  code : Option Nat
  errStatus : Option Nat
  message : Option String
deriving Repr, DecidableEq

/-- The global error handler of `server.js` (non-production branch):
Mongoose `ValidationError` maps to 400, duplicate-key code 11000 maps to
400 `'Duplicate entry found'`, otherwise `err.status || 500`. -/
def globalErrorHandler (e : JsError) : ErrResponse :=
  if e.name = some "ValidationError" then ⟨400, false, "Validation error"⟩
  else if e.code = some 11000 then ⟨400, false, "Duplicate entry found"⟩
  else
    ⟨match e.errStatus with
     | none => 500
     | some s => if s = 0 then 500 else s,
     false, (e.message.getD "Internal server error")⟩

/-- Constant `MIN_ORDER_AMOUNT` from `cartController.js`. -/
def MIN_ORDER_AMOUNT : Nat := 200

/-- The accumulation loop of `calculateTotals` (`POST /api/cart/calculate`):
items without a catalog price are skipped; returns `(subtotal, itemCount)`. -/
def calcAccumulate (cat : Catalog) : List ReqItem → Nat × Nat
  | [] => (0, 0)
  | it :: rest =>
    let (s, c) := calcAccumulate cat rest
    match cat it.productId it.packSize with
    | none => (s, c)
    | some price => (price * it.quantity + s, it.quantity + c)

/-- The summary fields computed by `calculateTotals`. -/
structure CartSummary where
  itemCount : Nat
  subtotal : Nat
  deliveryCharge : Nat
  total : Nat
deriving Repr, DecidableEq

/-- Model of `calculateTotals` (`cartController.js`): note the extra
`subtotal > 0` guard on the delivery charge. -/
def calculateTotals (cat : Catalog) (items : List ReqItem) : CartSummary :=
  let (subtotal, itemCount) := calcAccumulate cat items
  let deliveryCharge :=
    if subtotal ≥ FREE_DELIVERY_ABOVE then 0
    else if subtotal > 0 then DELIVERY_CHARGE else 0
  { itemCount := itemCount
    subtotal := subtotal
    deliveryCharge := deliveryCharge
    total := subtotal + deliveryCharge }

/-- The validated-item loop of `validateCart` (`POST /api/cart/validate`):
returns the per-item totals of the priced items (unpriced items go to the
`errors` array instead). -/
def validateCartTotals (cat : Catalog) : List ReqItem → List Nat
  | [] => []
  | it :: rest =>
    match cat it.productId it.packSize with
    | none => validateCartTotals cat rest
    | some price => price * it.quantity :: validateCartTotals cat rest

/-- The summary computed by `validateCart` from the validated items. -/
def validateCartSummary (cat : Catalog) (items : List ReqItem) : CartSummary :=
  let subtotal := (validateCartTotals cat items).sum
  let deliveryCharge := if subtotal ≥ FREE_DELIVERY_ABOVE then 0 else DELIVERY_CHARGE
  { itemCount := (items.filter fun it => (cat it.productId it.packSize).isSome).foldr
      (fun it acc => it.quantity + acc) 0
    subtotal := subtotal
    deliveryCharge := deliveryCharge
    total := subtotal + deliveryCharge }

/-- The decimal digit character `'0' + n` (for `n < 10`). -/
def digitChar (n : Nat) : Char := Char.ofNat (48 + n)

/-- Zero-padded two-digit decimal rendering of `n < 100`. -/
def pad2 (n : Nat) : List Char := [digitChar (n / 10), digitChar (n % 10)]

/-- Zero-padded four-digit decimal rendering of `y < 10000`, as produced
by `Date.prototype.toISOString` for the year field. -/
def pad4 (y : Nat) : List Char := pad2 (y / 100) ++ pad2 (y % 100)

/-- A UTC calendar date as carried by a JS `Date`. -/
structure UtcDate where
  year : Nat
  month : Nat
  day : Nat
deriving Repr, DecidableEq

/-- The date part `YYYY-MM-DD` of `Date.prototype.toISOString`. -/
def isoDateChars (d : UtcDate) : List Char :=
  pad4 d.year ++ '-' :: pad2 d.month ++ '-' :: pad2 d.day

/-- Drop every dash: the `replace` of `generateOrderId` with the global
dash regex. -/
def removeDashes : List Char → List Char
  | [] => []
  | c :: cs => if c = '-' then removeDashes cs else c :: removeDashes cs

/-- The value `now.toISOString().slice(2, 10)` with every dash removed (the
`replace` with the global dash regex) from `generateOrderId` in
`config/prisma.js`. -/
def dateStr (d : UtcDate) : List Char :=
  removeDashes (((isoDateChars d).drop 2).take 8)

/-- The 32-character alphabet of `generateOrderId`. -/
def orderIdChars : List Char := "ABCDEFGHJKLMNPQRSTUVWXYZ23456789".data

/-- Model of `generateOrderId` (`config/prisma.js`): the six draws of
`Math.floor(Math.random() * chars.length)` are passed in as `rands`. -/
def generateOrderId (d : UtcDate) (rands : Fin 6 → Fin 32) : String :=
  String.mk ('T' :: 'W' :: '-' :: dateStr d ++ '-' ::
    ((List.finRange 6).map fun i => orderIdChars.get ⟨(rands i).val, by
      have : orderIdChars.length = 32 := by decide
      omega⟩))

/-- The server-side subtotal of a list of cart items: catalog price times
quantity, summed. -/
def specSubtotal (cat : Catalog) (items : List ReqItem) : Nat :=
  (items.map fun i => ((cat i.productId i.packSize).getD 0) * i.quantity).sum

/-- Character-wise ASCII lowercasing, used to compare the two backends'
statuses "up to letter case". -/
def lowerStr (s : String) : String := String.mk (s.data.map Char.toLower)

/-- A concrete HMAC stand-in, used only in witnesses. -/
def demoHmac : HmacFn := fun k m => k ++ ":" ++ m

/-- A concrete stored order, used only in witnesses. -/
def demoOrder : Order :=
  { orderId := "TW-260101-ABCDEF"
    address := ⟨"1", "Main St", "Area", "560001"⟩
    items := [⟨"cardamom", "Cardamom", "100g", 2, 250, 500⟩]
    subtotal := 500
    deliveryCharge := 0
    total := 500
    paymentMethod := "online"
    paymentStatus := "pending"
    status := "pending"
    razorpayOrderId := some "rzo_1"
    razorpayPaymentId := none
    razorpaySignature := none
    statusHistory := [⟨"pending", "t0", none⟩] }

/-- A concrete already-paid order, used only in witnesses. -/
def paidDemoOrder : Order :=
  { demoOrder with
    paymentStatus := "paid"
    status := "confirmed"
    razorpayPaymentId := some "p1" }

/-- A concrete cancellable (Prisma-style) order, used only in witnesses. -/
def pendingDemoOrder : Order :=
  { demoOrder with status := "PENDING", paymentStatus := "PENDING" }

/-- A concrete webhook event body, used only in witnesses. -/
def demoEvent : WebhookEvent := ⟨"payment.captured", ⟨"rzo_1", "p1"⟩, "p1"⟩

/-- A concrete request with a non-Bengaluru pincode, used only in
witnesses. -/
def badPinReq : CreateOrderReq :=
  { demoReq with address := ⟨"1", "Main St", "Area", "600001"⟩ }

/-- A concrete request with an invalid payment method, used only in
witnesses. -/
def badPayReq : CreateOrderReq := { demoReq with paymentMethod := "card" }

/-- A concrete request containing an item absent from the catalog, used
only in witnesses. -/
def badReq : CreateOrderReq :=
  { demoReq with items := [⟨"unknown", "X", "1kg", 1, 10⟩] }

/-- The order the Prisma `createOrder` builds from `demoReq`, used only
in witnesses. -/
def demoPrismaOrder : Order :=
  { orderId := "A", address := demoReq.address,
    items := [⟨"cardamom", "Cardamom", "100g", 2, 250, 500⟩],
    subtotal := 500, deliveryCharge := 0, total := 500,
    paymentMethod := "COD", paymentStatus := "PENDING", status := "CONFIRMED",
    razorpayOrderId := none, razorpayPaymentId := none,
    razorpaySignature := none,
    statusHistory := [⟨"CONFIRMED", "t", none⟩] }

/-- The order the Mongoose `createOrder` builds from `demoReq` (the
save hook appends a second history entry on a fresh document), used only
in witnesses. -/
def demoMongoOrder : Order :=
  { orderId := "B", address := demoReq.address,
    items := [⟨"cardamom", "Cardamom", "100g", 2, 250, 500⟩],
    subtotal := 500, deliveryCharge := 0, total := 500,
    paymentMethod := "cod", paymentStatus := "pending", status := "confirmed",
    razorpayOrderId := none, razorpayPaymentId := none,
    razorpaySignature := none,
    statusHistory := [⟨"confirmed", "t", none⟩, ⟨"confirmed", "t", none⟩] }

/-! ### Helper lemmas -/

theorem validateItems_isSome_iff (cat : Catalog) (items : List ReqItem) :
    (validateItems cat items).isSome ↔
      ∀ i ∈ items, (cat i.productId i.packSize).isSome := by
  induction items with
  | nil => simp [validateItems]
  | cons it rest ih =>
    simp only [validateItems, List.mem_cons]
    cases h : cat it.productId it.packSize with
    | none =>
      simp only [Option.isSome_none, Bool.false_eq_true, false_iff]
      intro hall
      have := hall it (Or.inl rfl)
      rw [h] at this
      simp at this
    | some price =>
      cases h2 : validateItems cat rest with
      | none =>
        simp only [Option.isSome_none, Bool.false_eq_true, false_iff]
        rw [h2] at ih
        simp only [Option.isSome_none, Bool.false_eq_true, false_iff] at ih
        intro hall
        exact ih fun i hi => hall i (Or.inr hi)
      | some p =>
        rw [h2] at ih
        simp only [Option.isSome_some, true_iff] at ih
        obtain ⟨vs, sub⟩ := p
        simp only [Option.isSome_some, true_iff]
        intro i hi
        rcases hi with hi | hi
        · subst hi; rw [h]; simp
        · exact ih i hi

theorem validateItems_spec (cat : Catalog) (items : List ReqItem)
    (vs : List OrderItem) (sub : Nat)
    (h : validateItems cat items = some (vs, sub)) :
    List.Forall₂ (fun (ri : ReqItem) (vi : OrderItem) =>
      cat ri.productId ri.packSize = some vi.price ∧
      vi.productId = ri.productId ∧ vi.name = ri.name ∧
      vi.packSize = ri.packSize ∧ vi.quantity = ri.quantity ∧
      vi.total = vi.price * ri.quantity) items vs ∧
    sub = (vs.map (·.total)).sum ∧
    sub = specSubtotal cat items := by
  induction items generalizing vs sub with
  | nil =>
    simp only [validateItems, Option.some_inj, Prod.mk.injEq] at h
    obtain ⟨h1, h2⟩ := h
    subst h1; subst h2
    exact ⟨List.Forall₂.nil, by simp [specSubtotal]⟩
  | cons it rest ih =>
    simp only [validateItems] at h
    cases hc : cat it.productId it.packSize with
    | none => rw [hc] at h; exact absurd h (by simp)
    | some price =>
      rw [hc] at h
      cases h2 : validateItems cat rest with
      | none => rw [h2] at h; exact absurd h (by simp)
      | some p =>
        obtain ⟨vs', sub'⟩ := p
        rw [h2] at h
        simp only [Option.some_inj, Prod.mk.injEq] at h
        obtain ⟨hvs, hsub⟩ := h
        obtain ⟨hf, hs, hspec⟩ := ih vs' sub' h2
        subst hvs; subst hsub
        refine ⟨List.Forall₂.cons ⟨hc, rfl, rfl, rfl, rfl, rfl⟩ hf, ?_, ?_⟩
        · simp [hs]
        · simp [specSubtotal, hc] at hspec ⊢
          omega

theorem validateItems_none_of_missing (cat : Catalog) (items : List ReqItem)
    (h : ∃ i ∈ items, cat i.productId i.packSize = none) :
    validateItems cat items = none := by
  induction items with
  | nil => simp at h
  | cons it rest ih =>
    obtain ⟨i, hi, hnone⟩ := h
    simp only [validateItems]
    rcases List.mem_cons.mp hi with hi | hi
    · subst hi; rw [hnone]
    · cases hc : cat it.productId it.packSize with
      | none => rfl
      | some price => rw [ih ⟨i, hi, hnone⟩]

theorem validateItems_ignores_clientPrice (cat : Catalog)
    (items : List ReqItem) (f : ReqItem → Nat) :
    validateItems cat (items.map fun i => { i with clientPrice := f i }) =
      validateItems cat items := by
  induction items with
  | nil => rfl
  | cons it rest ih => simp only [List.map_cons, validateItems, ih]

theorem preSave_paymentStatus (now : String) (b : Bool) (o : Order) :
    (preSave now b o).paymentStatus = o.paymentStatus := rfl

theorem preSave_status (now : String) (b : Bool) (o : Order) :
    (preSave now b o).status = o.status := rfl

theorem preSave_razorpayOrderId (now : String) (b : Bool) (o : Order) :
    (preSave now b o).razorpayOrderId = o.razorpayOrderId := rfl

theorem find?_updateFirst (p : Order → Bool) (f : Order → Order)
    (l : List Order) (o : Order)
    (hfind : l.find? p = some o) (hpf : p (f o) = true) :
    (updateFirst p f l).find? p = some (f o) := by
  induction l with
  | nil => simp at hfind
  | cons a rest ih =>
    by_cases ha : p a
    · rw [List.find?_cons_of_pos _ ha] at hfind
      obtain rfl := Option.some_inj.mp hfind
      simp [updateFirst, ha, List.find?_cons_of_pos _ hpf]
    · rw [List.find?_cons_of_neg _ (by simpa using ha)] at hfind
      simp only [updateFirst, if_neg ha]
      rw [List.find?_cons_of_neg _ (by simpa using ha)]
      exact ih hfind

/-! ### Claims -/

/-- C1: for every `POST /api/payments/verify` request whose `orderId`
matches an existing order and with `RAZORPAY_KEY_SECRET` set, the order
is marked paid (`paymentStatus = 'paid'`, both razorpay fields stored,
`status = 'confirmed'`) if and only if the supplied `razorpay_signature`
equals the hex HMAC-SHA256, keyed with the secret, of
`razorpay_order_id + "|" + razorpay_payment_id`; when the signatures
differ the handler sets `paymentStatus` to `'failed'` and responds 400. -/
theorem verifyPayment_marks_paid_iff_signature
    (key : String) (hmac : HmacFn) (order : Order)
    (oid pid sig now : String) :
    ((∃ o', (verifyPayment (some key) hmac (some order) oid pid sig now).2 = some o' ∧
        o'.paymentStatus = "paid" ∧
        o'.razorpayPaymentId = some pid ∧
        o'.razorpaySignature = some sig ∧
        o'.status = "confirmed") ↔
      sig = hmac key (oid ++ "|" ++ pid)) ∧
    (sig ≠ hmac key (oid ++ "|" ++ pid) →
      (verifyPayment (some key) hmac (some order) oid pid sig now).1 = 400 ∧
      ∃ o', (verifyPayment (some key) hmac (some order) oid pid sig now).2 = some o' ∧
        o'.paymentStatus = "failed") := by
  by_cases h : hmac key (oid ++ "|" ++ pid) = sig
  · have hcond : ¬(hmac key (oid ++ "|" ++ pid) ≠ sig) := not_not_intro h
    refine ⟨?_, fun hne => absurd h.symm hne⟩
    simp only [verifyPayment, if_neg hcond]
    constructor
    · intro _; exact h.symm
    · intro _
      refine ⟨_, rfl, ?_, ?_, ?_, ?_⟩ <;> simp [preSave]
  · have hcond : hmac key (oid ++ "|" ++ pid) ≠ sig := h
    constructor
    · simp only [verifyPayment, if_pos hcond]
      constructor
      · rintro ⟨o', ho', hpaid, -⟩
        obtain rfl := Option.some_inj.mp ho'
        simp [preSave] at hpaid
      · intro heq; exact absurd heq.symm h
    · intro _
      simp only [verifyPayment, if_pos hcond]
      exact ⟨by trivial, ⟨preSave now false { order with paymentStatus := "failed" },
        rfl, by simp [preSave]⟩⟩

/-- Witness for C1 at concrete inputs: a wrong signature yields 400 with
`paymentStatus = 'failed'`, and a matching one marks the order paid. -/
theorem verifyPayment_marks_paid_iff_signature_witness :
    ((verifyPayment (some "k") demoHmac (some demoOrder) "o1" "p1" "bad" "t1").1 = 400) ∧
    (∃ o', (verifyPayment (some "k") demoHmac (some demoOrder) "o1" "p1" "k:o1|p1" "t1").2
        = some o' ∧
      o'.paymentStatus = "paid" ∧ o'.razorpayPaymentId = some "p1" ∧
      o'.razorpaySignature = some "k:o1|p1" ∧ o'.status = "confirmed") := by
  constructor
  · exact ((verifyPayment_marks_paid_iff_signature "k" demoHmac demoOrder
      "o1" "p1" "bad" "t1").2 (by decide)).1
  · exact (verifyPayment_marks_paid_iff_signature "k" demoHmac demoOrder
      "o1" "p1" "k:o1|p1" "t1").1.mpr (by decide)

/-- C3: processing `payment.captured` is idempotent: an order whose
`paymentStatus` is already `'paid'` is left completely unchanged, and
applying `handlePaymentCaptured` twice with the same event equals
applying it once. -/
theorem handlePaymentCaptured_idempotent
    (pay : PaymentEntity) (now now2 : String) (store : List Order) :
    (∀ o, store.find? (byRzpOrderId pay) = some o → o.paymentStatus = "paid" →
       handlePaymentCaptured pay now store = store) ∧
    handlePaymentCaptured pay now2 (handlePaymentCaptured pay now store) =
      handlePaymentCaptured pay now store := by
  constructor
  · intro o hfind hpaid
    simp only [handlePaymentCaptured, hfind, if_neg (not_not_intro hpaid)]
  · cases hfind : store.find? (byRzpOrderId pay) with
    | none => simp only [handlePaymentCaptured, hfind]
    | some o =>
      by_cases hpaid : o.paymentStatus = "paid"
      · simp only [handlePaymentCaptured, hfind, if_neg (not_not_intro hpaid)]
      · simp only [handlePaymentCaptured, hfind, if_pos hpaid]
        have hq : byRzpOrderId pay (capturedUpdate pay now o) = true := by
          have hqo := List.find?_some hfind
          simpa [capturedUpdate, preSave, byRzpOrderId] using hqo
        have hfind2 := find?_updateFirst (byRzpOrderId pay)
          (capturedUpdate pay now) store o hfind hq
        have hps : (capturedUpdate pay now o).paymentStatus = "paid" := by
          simp [capturedUpdate, preSave]
        simp only [hfind2, if_neg (not_not_intro hps)]

/-- Witness for C3 at a concrete store: capturing a payment for an
already-paid order changes nothing. -/
theorem handlePaymentCaptured_idempotent_witness :
    handlePaymentCaptured ⟨"rzo_1", "p9"⟩ "t5" [paidDemoOrder] = [paidDemoOrder] :=
  (handlePaymentCaptured_idempotent ⟨"rzo_1", "p9"⟩ "t5" "t6" [paidDemoOrder]).1
    paidDemoOrder (by decide) rfl

/-- C4: for `POST /api/payments/webhook` with `RAZORPAY_WEBHOOK_SECRET`
set, order state is modified only if the `x-razorpay-signature` header
equals the hex HMAC-SHA256, keyed with the webhook secret, of the JSON
serialization of the body as delivered to the handler; a missing header
yields 400, a mismatched signature 401, and in both rejection cases the
store is unchanged. -/
theorem handleWebhook_signature_gate
    (secret : String) (hmac : HmacFn) (serialize : WebhookEvent → String)
    (sigHeader : Option String) (ev : WebhookEvent) (now : String)
    (store : List Order) :
    handleWebhook (some secret) hmac serialize none ev now store = (400, store) ∧
    (∀ sig, sig ≠ hmac secret (serialize ev) →
      handleWebhook (some secret) hmac serialize (some sig) ev now store = (401, store)) ∧
    ((handleWebhook (some secret) hmac serialize sigHeader ev now store).2 ≠ store →
      sigHeader = some (hmac secret (serialize ev))) := by
  refine ⟨rfl, ?_, ?_⟩
  · intro sig hne
    simp only [handleWebhook, if_pos hne]
  · intro hmod
    cases sigHeader with
    | none => exact absurd rfl hmod
    | some sig =>
      by_cases hs : sig = hmac secret (serialize ev)
      · exact congrArg some hs
      · have heq : handleWebhook (some secret) hmac serialize (some sig) ev now store
            = (401, store) := by
          simp only [handleWebhook, if_pos hs]
        exact absurd (congrArg Prod.snd heq) hmod

/-- Witness for C4 at concrete inputs: a mismatched signature yields 401
and leaves the (empty) store unchanged. -/
theorem handleWebhook_signature_gate_witness :
    handleWebhook (some "s") demoHmac (fun _ => "body") (some "bad")
      demoEvent "t" [] = (401, []) :=
  (handleWebhook_signature_gate "s" demoHmac (fun _ => "body")
    (some "bad") demoEvent "t" []).2.1 "bad" (by decide)

/-- C2: for every `POST /api/orders` request, the stored price of each
item comes from the server-side catalog (`getProductPrice`), never from
the client-supplied item price; if any item has no catalog price the
handler responds 400 and no order is created. -/
theorem createOrder_prices_from_catalog
    (cat : Catalog) (oid now : String) (req : CreateOrderReq) :
    (∀ code o, createOrderHandler cat oid now req = (code, some o) →
      List.Forall₂ (fun (ri : ReqItem) (vi : OrderItem) =>
        cat ri.productId ri.packSize = some vi.price ∧
        vi.quantity = ri.quantity ∧ vi.total = vi.price * ri.quantity)
        req.items o.items) ∧
    (∀ f : ReqItem → Nat,
      createOrderHandler cat oid now
        { req with items := req.items.map fun i => { i with clientPrice := f i } } =
      createOrderHandler cat oid now req) ∧
    ((∃ i ∈ req.items, cat i.productId i.packSize = none) →
      createOrderHandler cat oid now req = (400, none)) := by
  refine ⟨?_, ?_, ?_⟩
  · intro code o h
    simp only [createOrderHandler, prismaCreateOrder] at h
    cases hv : validateItems cat req.items with
    | none => rw [hv] at h; simp at h
    | some p =>
      obtain ⟨vs, sub⟩ := p
      rw [hv] at h
      simp only [Prod.mk.injEq, Option.some_inj] at h
      obtain ⟨-, ho⟩ := h
      subst ho
      have hspec := validateItems_spec cat req.items vs sub hv
      exact hspec.1.imp fun a b hab => ⟨hab.1, hab.2.2.2.2.1, hab.2.2.2.2.2⟩
  · intro f
    simp only [createOrderHandler, prismaCreateOrder,
      validateItems_ignores_clientPrice]
  · intro hmiss
    simp only [createOrderHandler, prismaCreateOrder,
      validateItems_none_of_missing cat req.items hmiss]

/-- C8: `POST /api/orders/:orderId/cancel` succeeds (status set to
`CANCELLED`, a `CANCELLED` entry appended to `statusHistory`) if and only
if the order exists and its status is `PENDING` or `CONFIRMED`; an
existing order in any other status gets 400 and is left unchanged; a
missing order gets 404. -/
theorem cancelOrder_iff_cancellable
    (reason : Option String) (now : String) (order : Order) :
    ((cancelOrder reason now (some order)).1 = 200 ↔
        order.status = "PENDING" ∨ order.status = "CONFIRMED") ∧
    (order.status = "PENDING" ∨ order.status = "CONFIRMED" →
      cancelOrder reason now (some order) = (200, some
        { order with
          status := "CANCELLED"
          statusHistory := order.statusHistory ++
            [⟨"CANCELLED", now, some (reason.getD "Cancelled by customer")⟩] })) ∧
    (order.status ≠ "PENDING" → order.status ≠ "CONFIRMED" →
      cancelOrder reason now (some order) = (400, some order)) ∧
    cancelOrder reason now none = (404, none) := by
  refine ⟨?_, ?_, ?_, rfl⟩
  · by_cases hc : order.status = "PENDING" ∨ order.status = "CONFIRMED"
    · simp only [cancelOrder, if_pos hc]
      exact iff_of_true (by trivial) hc
    · simp only [cancelOrder, if_neg hc]
      exact iff_of_false (by simp) hc
  · intro hc
    simp only [cancelOrder, if_pos hc]
  · intro h1 h2
    have hc : ¬(order.status = "PENDING" ∨ order.status = "CONFIRMED") := by
      rintro (h | h)
      · exact h1 h
      · exact h2 h
    simp only [cancelOrder, if_neg hc]

/-- Witness for C8 at concrete inputs: cancelling a `PENDING` order
succeeds and appends the `CANCELLED` history entry. -/
theorem cancelOrder_iff_cancellable_witness :
    cancelOrder none "t9" (some pendingDemoOrder) =
      (200, some { pendingDemoOrder with
        status := "CANCELLED"
        statusHistory := pendingDemoOrder.statusHistory ++
          [⟨"CANCELLED", "t9", some "Cancelled by customer"⟩] }) :=
  (cancelOrder_iff_cancellable none "t9" pendingDemoOrder).2.1 (Or.inl rfl)

theorem pincode_error_nonempty (req : CreateOrderReq)
    (h : pincodeValid req.address.pincode = false) :
    validateOrderErrors req ≠ [] := by
  simp only [validateOrderErrors, h]
  intro hcontra
  simp only [List.append_eq_nil, Bool.false_eq_true, if_false] at hcontra
  exact absurd hcontra.1.2 (by simp)

/-- C6: every order accepted by `POST /api/orders` has a delivery address
whose pincode matches `^560[0-9]{3}$`; any other pincode is rejected with
a 400 validation error and no order is persisted. -/
theorem orderEndpoint_only_bengaluru
    (cat : Catalog) (oid now : String) (req : CreateOrderReq) :
    (∀ code o, orderEndpoint cat oid now req = (code, some o) →
      pincodeValid o.address.pincode = true) ∧
    (pincodeValid req.address.pincode = false →
      orderEndpoint cat oid now req = (400, none)) := by
  constructor
  · intro code o h
    by_cases he : validateOrderErrors req = []
    · have hE : handleValidationErrors (validateOrderErrors req) = none := by
        simp [handleValidationErrors, he]
      simp only [orderEndpoint, hE] at h
      have haddr : o.address = req.address := by
        simp only [createOrderHandler, prismaCreateOrder] at h
        cases hv : validateItems cat req.items with
        | none => rw [hv] at h; simp at h
        | some p =>
          obtain ⟨vs, sub⟩ := p
          rw [hv] at h
          simp only [Prod.mk.injEq, Option.some_inj] at h
          obtain ⟨-, ho⟩ := h
          subst ho
          rfl
      rw [haddr]
      by_cases hp : pincodeValid req.address.pincode
      · exact hp
      · exact absurd he (pincode_error_nonempty req (by simpa using hp))
    · obtain ⟨a, l', hcons⟩ := List.exists_cons_of_ne_nil he
      have hE : handleValidationErrors (validateOrderErrors req) =
          some ⟨400, false, "Validation error"⟩ := by
        simp [handleValidationErrors, hcons]
      simp only [orderEndpoint, hE] at h
      simp at h
  · intro hp
    obtain ⟨a, l', hcons⟩ := List.exists_cons_of_ne_nil (pincode_error_nonempty req hp)
    have hE : handleValidationErrors (validateOrderErrors req) =
        some ⟨400, false, "Validation error"⟩ := by
      simp [handleValidationErrors, hcons]
    simp only [orderEndpoint, hE]

/-- Witness for C6 at concrete inputs: a Chennai pincode is rejected with
400 and no order is stored. -/
theorem orderEndpoint_only_bengaluru_witness :
    orderEndpoint demoCatalog "TW-1" "t0" badPinReq = (400, none) :=
  (orderEndpoint_only_bengaluru demoCatalog "TW-1" "t0" badPinReq).2 (by decide)

theorem quantity_error_nonempty (req : CreateOrderReq)
    (h : ∃ i ∈ req.items, quantityValid i.quantity = false) :
    validateOrderErrors req ≠ [] := by
  obtain ⟨i, hi, hq⟩ := h
  simp only [validateOrderErrors]
  intro hcontra
  simp only [List.append_eq_nil] at hcontra
  have hfm := hcontra.1.1.2
  rw [List.filterMap_eq_nil_iff] at hfm
  have h2 := hfm i hi
  rw [hq] at h2
  simp at h2

theorem paymentMethod_error_nonempty (req : CreateOrderReq)
    (h : paymentMethodValid req.paymentMethod = false) :
    validateOrderErrors req ≠ [] := by
  simp only [validateOrderErrors, h]
  intro hcontra
  simp only [List.append_eq_nil, Bool.false_eq_true, if_false] at hcontra
  exact absurd hcontra.2 (by simp)

theorem orderEndpoint_400_of_errors (cat : Catalog) (oid now : String)
    (req : CreateOrderReq) (h : validateOrderErrors req ≠ []) :
    orderEndpoint cat oid now req = (400, none) := by
  obtain ⟨a, l', hcons⟩ := List.exists_cons_of_ne_nil h
  have hE : handleValidationErrors (validateOrderErrors req) =
      some ⟨400, false, "Validation error"⟩ := by
    simp [handleValidationErrors, hcons]
  simp only [orderEndpoint, hE]

/-- C5: failed input validation (bad pincode, non-positive or >100
quantity, unknown payment method) yields 400 with the
`{success:false, message}` envelope; a lookup of a nonexistent order
(get, cancel, payment create-order, payment verify) yields 404; a
duplicate-key error (code 11000) maps to 400 `'Duplicate entry found'`;
an unhandled error without its own status maps to 500. -/
theorem error_status_mapping
    (errs : List FieldError) (cat : Catalog) (oid now : String)
    (req : CreateOrderReq) (reason : Option String) (e : JsError)
    (hmac : HmacFn) (ordId : String) (amount : Nat) (cfg : Bool)
    (rzoid rzpid rzsig : String) (secret : Option String) :
    (errs ≠ [] →
      handleValidationErrors errs = some ⟨400, false, "Validation error"⟩) ∧
    ((pincodeValid req.address.pincode = false ∨
      (∃ i ∈ req.items, quantityValid i.quantity = false) ∨
      paymentMethodValid req.paymentMethod = false) →
      orderEndpoint cat oid now req = (400, none)) ∧
    getOrder none = 404 ∧
    cancelOrder reason now none = (404, none) ∧
    verifyPayment secret hmac none rzoid rzpid rzsig now = (404, none) ∧
    (ordId ≠ "" → amount ≠ 0 →
      createRazorpayOrderCheck ordId amount none cfg = 404) ∧
    (e.name ≠ some "ValidationError" → e.code = some 11000 →
      globalErrorHandler e = ⟨400, false, "Duplicate entry found"⟩) ∧
    (e.name ≠ some "ValidationError" → e.code ≠ some 11000 →
      e.errStatus = none → (globalErrorHandler e).status = 500) := by
  refine ⟨?_, ?_, rfl, rfl, rfl, ?_, ?_, ?_⟩
  · intro h
    obtain ⟨a, l', hcons⟩ := List.exists_cons_of_ne_nil h
    simp [handleValidationErrors, hcons]
  · rintro (h | h | h)
    · exact orderEndpoint_400_of_errors cat oid now req (pincode_error_nonempty req h)
    · exact orderEndpoint_400_of_errors cat oid now req (quantity_error_nonempty req h)
    · exact orderEndpoint_400_of_errors cat oid now req (paymentMethod_error_nonempty req h)
  · intro h1 h2
    have hc : ¬(ordId = "" ∨ amount = 0) := by
      rintro (h | h)
      · exact h1 h
      · exact h2 h
    simp only [createRazorpayOrderCheck, if_neg hc]
  · intro hn hc
    simp only [globalErrorHandler, if_neg hn, if_pos hc]
  · intro hn hc hs
    simp only [globalErrorHandler, if_neg hn, if_neg hc, hs]

/-- Witness for C5 at concrete inputs: validation errors give 400, a bad
payment method gives 400 with no order, a missing order gives 404 on
payment create-order, a duplicate-key error gives 400 `'Duplicate entry
found'`, and a status-less error gives 500. -/
theorem error_status_mapping_witness :
    handleValidationErrors [⟨"f", "m"⟩] = some ⟨400, false, "Validation error"⟩ ∧
    orderEndpoint demoCatalog "TW-1" "t0" badPayReq = (400, none) ∧
    createRazorpayOrderCheck "TW-9" 500 none true = 404 ∧
    globalErrorHandler ⟨none, some 11000, none, none⟩ =
      ⟨400, false, "Duplicate entry found"⟩ ∧
    (globalErrorHandler ⟨none, none, none, none⟩).status = 500 := by
  have h1 := error_status_mapping [⟨"f", "m"⟩] demoCatalog "TW-1" "t0" badPayReq
    none ⟨none, some 11000, none, none⟩ demoHmac "TW-9" 500 true "o" "p" "s" (some "k")
  have h2 := error_status_mapping [] demoCatalog "TW-1" "t0" demoReq
    none ⟨none, none, none, none⟩ demoHmac "TW-9" 500 true "o" "p" "s" (some "k")
  exact ⟨h1.1 (by decide),
    h1.2.1 (Or.inr (Or.inr (by decide))),
    h1.2.2.2.2.2.1 (by decide) (by decide),
    h1.2.2.2.2.2.2.1 (by decide) rfl,
    h2.2.2.2.2.2.2.2 (by decide) (by decide) rfl⟩

/-- Witness for C2 at concrete inputs: an item without a catalog price
makes the handler answer 400 and create no order. -/
theorem createOrder_prices_from_catalog_witness :
    createOrderHandler demoCatalog "TW-1" "t0" badReq = (400, none) :=
  (createOrder_prices_from_catalog demoCatalog "TW-1" "t0" badReq).2.2 (by decide)

theorem calcAccumulate_subtotal (cat : Catalog) (items : List ReqItem)
    (hall : ∀ i ∈ items, (cat i.productId i.packSize).isSome) :
    (calcAccumulate cat items).1 = specSubtotal cat items := by
  induction items with
  | nil => simp [calcAccumulate, specSubtotal]
  | cons it rest ih =>
    have hit := hall it (by simp)
    cases hc : cat it.productId it.packSize with
    | none => rw [hc] at hit; simp at hit
    | some price =>
      have ih2 := ih fun i hi => hall i (List.mem_cons_of_mem _ hi)
      simp [calcAccumulate, specSubtotal, hc] at ih2 ⊢
      omega

theorem validateCartTotals_sum (cat : Catalog) (items : List ReqItem)
    (hall : ∀ i ∈ items, (cat i.productId i.packSize).isSome) :
    (validateCartTotals cat items).sum = specSubtotal cat items := by
  induction items with
  | nil => simp [validateCartTotals, specSubtotal]
  | cons it rest ih =>
    have hit := hall it (by simp)
    cases hc : cat it.productId it.packSize with
    | none => rw [hc] at hit; simp at hit
    | some price =>
      have ih2 := ih fun i hi => hall i (List.mem_cons_of_mem _ hi)
      simp [validateCartTotals, specSubtotal, hc] at ih2 ⊢
      omega

/-- C9: when every item has a catalog price, the cart and order totals
satisfy `subtotal = Σ price·quantity`, `deliveryCharge = 0` for
`subtotal ≥ 500` and `40` otherwise (with `calculateTotals` additionally
charging 0 when the subtotal is 0), and `total = subtotal +
deliveryCharge` — for `calculateTotals`, `validateCart`'s summary and
`createOrder`. -/
theorem cart_totals_formula (cat : Catalog) (items : List ReqItem)
    (oid now : String)
    (hall : ∀ i ∈ items, (cat i.productId i.packSize).isSome) :
    ((calculateTotals cat items).subtotal = specSubtotal cat items ∧
     (calculateTotals cat items).deliveryCharge =
       (if specSubtotal cat items ≥ 500 then 0
        else if specSubtotal cat items > 0 then 40 else 0) ∧
     (calculateTotals cat items).total =
       (calculateTotals cat items).subtotal +
         (calculateTotals cat items).deliveryCharge) ∧
    ((validateCartSummary cat items).subtotal = specSubtotal cat items ∧
     (validateCartSummary cat items).deliveryCharge =
       (if specSubtotal cat items ≥ 500 then 0 else 40) ∧
     (validateCartSummary cat items).total =
       (validateCartSummary cat items).subtotal +
         (validateCartSummary cat items).deliveryCharge) ∧
    (∀ req o, req.items = items →
      prismaCreateOrder cat oid now req = some o →
      o.subtotal = specSubtotal cat items ∧
      o.deliveryCharge = (if specSubtotal cat items ≥ 500 then 0 else 40) ∧
      o.total = o.subtotal + o.deliveryCharge) := by
  refine ⟨?_, ?_, ?_⟩
  · have hsub := calcAccumulate_subtotal cat items hall
    cases hacc : calcAccumulate cat items with
    | mk s c =>
      rw [hacc] at hsub
      simp only at hsub
      subst hsub
      simp [calculateTotals, hacc, DELIVERY_CHARGE, FREE_DELIVERY_ABOVE]
  · have hsub := validateCartTotals_sum cat items hall
    simp [validateCartSummary, hsub, DELIVERY_CHARGE, FREE_DELIVERY_ABOVE]
  · intro req o hri h
    subst hri
    simp only [prismaCreateOrder] at h
    cases hv : validateItems cat req.items with
    | none => rw [hv] at h; simp at h
    | some p =>
      obtain ⟨vs, sub⟩ := p
      rw [hv] at h
      simp only [Option.some_inj] at h
      subst h
      have hspec := validateItems_spec cat req.items vs sub hv
      refine ⟨hspec.2.2, ?_, rfl⟩
      simp [hspec.2.2, DELIVERY_CHARGE, FREE_DELIVERY_ABOVE]

theorem validateItems_consistent (cat : Catalog) :
    ∀ (items : List ReqItem) (vs : List OrderItem) (sub : Nat),
      validateItems cat items = some (vs, sub) →
      ∀ vi ∈ vs, vi.total = vi.price * vi.quantity := by
  intro items
  induction items with
  | nil =>
    intro vs sub h vi hvi
    simp only [validateItems, Option.some_inj, Prod.mk.injEq] at h
    obtain ⟨h1, -⟩ := h
    rw [← h1] at hvi
    simp at hvi
  | cons it rest ih =>
    intro vs sub h vi hvi
    simp only [validateItems] at h
    cases hc : cat it.productId it.packSize with
    | none => rw [hc] at h; simp at h
    | some price =>
      rw [hc] at h
      cases h2 : validateItems cat rest with
      | none => rw [h2] at h; simp at h
      | some p =>
        obtain ⟨vs', sub'⟩ := p
        rw [h2] at h
        simp only [Option.some_inj, Prod.mk.injEq] at h
        obtain ⟨hvs, -⟩ := h
        subst hvs
        rcases List.mem_cons.mp hvi with rfl | hvi
        · rfl
        · exact ih vs' sub' h2 vi hvi

theorem map_recalc_total_id (vs : List OrderItem)
    (h : ∀ vi ∈ vs, vi.total = vi.price * vi.quantity) :
    (vs.map fun it => { it with total := it.price * it.quantity }) = vs := by
  induction vs with
  | nil => rfl
  | cons v rest ih =>
    simp only [List.map_cons, List.cons.injEq]
    constructor
    · have hv := h v (by simp)
      cases v
      simp_all
    · exact ih fun vi hvi => h vi (List.mem_cons_of_mem _ hvi)

/-- C7: on every identical valid request body the Prisma and Mongoose
`createOrder` agree: they fail together, and on success they compute
equal validated items, subtotal, delivery charge and total, and
equivalent initial states (statuses agreeing up to letter case, with
`paymentStatus` pending and `status` confirmed for cod, pending
otherwise). -/
theorem backends_equivalent (cat : Catalog) (oid oid2 now : String)
    (req : CreateOrderReq) :
    (prismaCreateOrder cat oid now req = none ↔
      mongooseCreateOrder cat oid2 now req = none) ∧
    (∀ po mo, prismaCreateOrder cat oid now req = some po →
      mongooseCreateOrder cat oid2 now req = some mo →
      po.items = mo.items ∧ po.subtotal = mo.subtotal ∧
      po.deliveryCharge = mo.deliveryCharge ∧ po.total = mo.total ∧
      lowerStr po.status = mo.status ∧
      lowerStr po.paymentStatus = mo.paymentStatus) := by
  cases hv : validateItems cat req.items with
  | none =>
    refine ⟨by simp [prismaCreateOrder, mongooseCreateOrder, hv], ?_⟩
    intro po mo hp hm
    simp [prismaCreateOrder, hv] at hp
  | some p =>
    obtain ⟨vs, sub⟩ := p
    have hfix := map_recalc_total_id vs
      (validateItems_consistent cat req.items vs sub hv)
    have hsum : (vs.map (·.total)).sum = sub :=
      ((validateItems_spec cat req.items vs sub hv).2.1).symm
    refine ⟨by simp [prismaCreateOrder, mongooseCreateOrder, hv], ?_⟩
    intro po mo hp hm
    simp only [prismaCreateOrder, hv, Option.some_inj] at hp
    simp only [mongooseCreateOrder, hv, Option.some_inj] at hm
    subst hp; subst hm
    refine ⟨?_, ?_, ?_, ?_, ?_, ?_⟩
    · simp [preSave, hfix]
    · simp [preSave, hfix, hsum]
    · simp [preSave]
    · simp [preSave, hfix, hsum]
    · by_cases hcod : req.paymentMethod = "cod" <;>
        simp only [preSave, hcod, if_pos, if_neg, if_true, if_false] <;>
        decide
    · simp only [preSave, ite_self]
      decide

/-- Witness for C7 at concrete inputs: the two backends produce the same
numbers and case-equivalent statuses on `demoReq`. -/
theorem backends_equivalent_witness :
    demoPrismaOrder.items = demoMongoOrder.items ∧
    demoPrismaOrder.subtotal = demoMongoOrder.subtotal ∧
    demoPrismaOrder.deliveryCharge = demoMongoOrder.deliveryCharge ∧
    demoPrismaOrder.total = demoMongoOrder.total ∧
    lowerStr demoPrismaOrder.status = demoMongoOrder.status ∧
    lowerStr demoPrismaOrder.paymentStatus = demoMongoOrder.paymentStatus :=
  (backends_equivalent demoCatalog "A" "B" "t" demoReq).2
    demoPrismaOrder demoMongoOrder (by decide) (by decide)

/-- Witness for C9 at a concrete cart (all items priced): subtotal 500,
free delivery, total 500. -/
theorem cart_totals_formula_witness :
    (calculateTotals demoCatalog demoReq.items).subtotal =
        specSubtotal demoCatalog demoReq.items ∧
    (calculateTotals demoCatalog demoReq.items).deliveryCharge =
       (if specSubtotal demoCatalog demoReq.items ≥ 500 then 0
        else if specSubtotal demoCatalog demoReq.items > 0 then 40 else 0) ∧
    (calculateTotals demoCatalog demoReq.items).total =
       (calculateTotals demoCatalog demoReq.items).subtotal +
         (calculateTotals demoCatalog demoReq.items).deliveryCharge :=
  (cart_totals_formula demoCatalog demoReq.items "TW-1" "t0" (by decide)).1

theorem digitChar_isDigit (n : Nat) (h : n ≤ 9) : (digitChar n).isDigit = true := by
  interval_cases n <;> decide

theorem digitChar_ne_dash (n : Nat) (h : n ≤ 9) : digitChar n ≠ '-' := by
  interval_cases n <;> decide

theorem dateStr_eq (d : UtcDate) (hm : d.month ≤ 99) (hd : d.day ≤ 99) :
    dateStr d = pad2 (d.year % 100) ++ pad2 d.month ++ pad2 d.day := by
  have h1 : digitChar (d.year % 100 / 10) ≠ '-' := digitChar_ne_dash _ (by omega)
  have h2 : digitChar (d.year % 100 % 10) ≠ '-' := digitChar_ne_dash _ (by omega)
  have h3 : digitChar (d.month / 10) ≠ '-' := digitChar_ne_dash _ (by omega)
  have h4 : digitChar (d.month % 10) ≠ '-' := digitChar_ne_dash _ (by omega)
  have h5 : digitChar (d.day / 10) ≠ '-' := digitChar_ne_dash _ (by omega)
  have h6 : digitChar (d.day % 10) ≠ '-' := digitChar_ne_dash _ (by omega)
  simp [dateStr, isoDateChars, pad4, pad2, removeDashes, h1, h2, h3, h4, h5, h6]

/-- C10: every string produced by the Prisma configuration's
`generateOrderId` has the form `TW-DDDDDD-XXXXXX`, where `DDDDDD` is the
UTC date as `YYMMDD` and `XXXXXX` is six characters drawn from the
32-character alphabet `ABCDEFGHJKLMNPQRSTUVWXYZ23456789`. -/
theorem generateOrderId_format (d : UtcDate) (rands : Fin 6 → Fin 32)
    (hm : d.month ≤ 12) (hd : d.day ≤ 31) :
    ∃ rs : List Char,
      (generateOrderId d rands).data =
        'T' :: 'W' :: '-' ::
          (pad2 (d.year % 100) ++ pad2 d.month ++ pad2 d.day) ++ '-' :: rs ∧
      (∀ c ∈ pad2 (d.year % 100) ++ pad2 d.month ++ pad2 d.day, c.isDigit) ∧
      rs.length = 6 ∧ (∀ c ∈ rs, c ∈ orderIdChars) := by
  refine ⟨(List.finRange 6).map fun i => orderIdChars.get ⟨(rands i).val, by
      have : orderIdChars.length = 32 := by decide
      omega⟩, ?_, ?_, ?_, ?_⟩
  · simp only [generateOrderId, dateStr_eq d (by omega) (by omega)]
  · intro c hc
    simp only [pad2, List.mem_append, List.mem_cons, List.mem_singleton,
      List.not_mem_nil, or_false] at hc
    rcases hc with ((rfl | rfl) | (rfl | rfl)) | (rfl | rfl)
    · exact digitChar_isDigit _ (by omega)
    · exact digitChar_isDigit _ (by omega)
    · exact digitChar_isDigit _ (by omega)
    · exact digitChar_isDigit _ (by omega)
    · exact digitChar_isDigit _ (by omega)
    · exact digitChar_isDigit _ (by omega)
  · simp
  · intro c hc
    simp only [List.mem_map] at hc
    obtain ⟨i, -, rfl⟩ := hc
    exact List.get_mem _ _ _

/-- Witness for C10 at a concrete date and random draws. -/
theorem generateOrderId_format_witness :
    ∃ rs : List Char,
      (generateOrderId ⟨2026, 10, 11⟩ (fun _ => 0)).data =
        'T' :: 'W' :: '-' ::
          (pad2 (2026 % 100) ++ pad2 10 ++ pad2 11) ++ '-' :: rs ∧
      (∀ c ∈ pad2 (2026 % 100) ++ pad2 10 ++ pad2 11, c.isDigit) ∧
      rs.length = 6 ∧ (∀ c ∈ rs, c ∈ orderIdChars) :=
  generateOrderId_format ⟨2026, 10, 11⟩ (fun _ => 0) (by decide) (by decide)
